import Mathlib

/-!
# Camera control flow of `src/main.cpp`

A shallow embedding of the device discovery, stream configuration, buffer pool
and single-frame acquisition functions of `src/main.cpp`, together with the
properties of these functions that the specification states.

Conventions of the embedding:

* a C++ pointer that the code tests against `nullptr` is an `Option`;
* a `throw CameraException(msg)` is `Failure.cameraException msg`; a member call
  through a null pointer that the code does not guard is `Failure.nullDereference`;
* every call into the vision SDK that has an effect is recorded, in program order,
  in a trace of `Event`s, which is threaded through the functions together with
  the objects they mutate;
* the network, the memory allocator and the camera are oracles (`Network`, the
  `alloc` argument, the `incoming` frame), so that the theorems hold for every
  behaviour of the environment.
-/

namespace Camera

/-! ## Failures, SDK results and the trace of SDK calls -/

/-- How a function of `main.cpp` can end abnormally. -/
inductive Failure where
  /-- The string is the message of a `throw CameraException(message)`. -/
  | cameraException (message : String)
  /-- A member call through a null pointer (undefined behaviour in C++). -/
  | nullDereference
deriving DecidableEq, Repr

/-- Modelled from the spec: the SDK's `PvResult` (declared in the SDK headers, not
under `src/`): a status code, `0` meaning OK, with its printable form. -/
structure PvResult where
  code : Nat
  codeString : String
deriving DecidableEq, Repr

/-- The `PvResult::IsOK` test. -/
def PvResult.IsOK (r : PvResult) : Bool := r.code == 0

/-- Modelled from the spec: the SDK's payload kind tag of a received buffer
(`PvPayloadType`, declared in the SDK headers). -/
inductive PvPayloadType where
  | PvPayloadTypeUndefined
  | PvPayloadTypeImage
  | PvPayloadTypeRawData
  | PvPayloadTypeFile
  | PvPayloadTypeChunkData
deriving DecidableEq, Repr

/-- Modelled from the spec: the image formats of the external encoder
(`PvBufferFormatType`, declared in the SDK headers). -/
inductive PvBufferFormatType where
  | PvBufferFormatBMP
  | PvBufferFormatRaw
  | PvBufferFormatTIFF
  | PvBufferFormatPNG
deriving DecidableEq, Repr

/-- A `PvBuffer *`: the identity of a heap-allocated buffer object. -/
abbrev BufferPtr := Nat

/-- One effectful call into the SDK or the C library, as made by `main.cpp`. -/
inductive Event where
  | find
  | setIPConfiguration (mac ip subnetMask gateway : String)
  | sleep (seconds : Int)
  | negotiatePacketSize
  | setStreamDestination (localIP : String) (localPort : Nat)
  | newBuffer (buffer : BufferPtr)
  | alloc (buffer : BufferPtr) (size : Nat) (ok : Bool)
  | queueBuffer (buffer : BufferPtr)
  | abortQueuedBuffers
  | retrieveBuffer
  | deleteBuffer (buffer : BufferPtr)
  | streamEnable
  | streamDisable
  | execute (command : String)
  | getValue (parameter : String)
  | store (buffer : BufferPtr) (path : String) (format : PvBufferFormatType)
deriving DecidableEq, Repr

/-- The SDK calls made so far, oldest first. -/
abbrev Trace := List Event

deriving instance DecidableEq for Except

/-- The state a function leaves behind together with its return value or failure. -/
structure Outcome (σ α : Type) where
  state : σ
  trace : Trace
  result : Except Failure α
deriving DecidableEq

/-! ## Device descriptors and the network -/

/-- The part of a descriptor that only the GigE Vision variant `PvDeviceInfoGEV` has. -/
structure PvDeviceInfoGEV where
  ipAddress : String
  macAddress : String
  subnetMask : String
  defaultGateway : String
deriving DecidableEq, Repr

/-- Modelled from the spec: a device descriptor (`PvDeviceInfo`, declared in the SDK
headers). `gev` is `some` exactly when `dynamic_cast<const PvDeviceInfoGEV *>`
succeeds on it. -/
structure PvDeviceInfo where
  displayID : String
  connectionID : String
  configurationValid : Bool
  gev : Option PvDeviceInfoGEV
deriving DecidableEq, Repr

/-- The network address of a descriptor; only a GigE Vision descriptor has one. -/
def PvDeviceInfo.address (d : PvDeviceInfo) : Option String :=
  d.gev.map (fun g => g.ipAddress)

/-- Modelled from the spec: a network interface of the host (`PvInterface`): the
descriptors `GetDeviceInfo(0)`, ..., `GetDeviceInfo(GetDeviceCount() - 1)`, where
`none` is a null pointer. -/
structure PvInterface where
  devices : List (Option PvDeviceInfo)
deriving DecidableEq, Repr

/-- Modelled from the spec: the `PvSystem` object: the interfaces seen by its last
`Find`, and how many times `Find` has been called on it. -/
structure PvSystem where
  finds : Nat
  interfaces : List (Option PvInterface)
deriving DecidableEq, Repr

/-- The environment of the discovery functions: what the `n`-th network scan sees, and
what `PvDeviceGEV::SetIPConfiguration` answers. -/
structure Network where
  scan : Nat → List (Option PvInterface)
  setIPConfiguration : String → String → String → String → PvResult

/-- Modelled from the spec: `PvSystem::Find` (`scanNetwork`), which replaces the
interfaces of the system by what the network shows now. -/
def PvSystem.Find (net : Network) (sys : PvSystem) : PvSystem :=
  { finds := sys.finds + 1, interfaces := net.scan sys.finds }

/-! ## `checkDeviceInfo` -/

/-- Embedding of `checkDeviceInfo` (lines 48-64). -/
def checkDeviceInfo (deviceInfo : Option PvDeviceInfo) (ipAddress : String) :
    Except Failure Bool :=
  match deviceInfo with
  | none =>
    .error (.cameraException "Unable to check mDevice info: 'mDeviceInfo' is null.")
  | some di =>
    if di.configurationValid then
      if ipAddress ≠ "" then
        -- `dig` is not tested against null before `dig->GetIPAddress()`
        match di.gev with
        | none => .error .nullDereference
        | some dig =>
          if dig.ipAddress = ipAddress then .ok true else .ok false
      else .ok true
    else .ok false

/-! ## `scanDevices` -/

/-- The inner loop of `scanDevices` (lines 78-83): push the non-null descriptors of one
interface, in index order, onto `devicesInfos`. -/
def collectInterface : List (Option PvDeviceInfo) → List PvDeviceInfo → List PvDeviceInfo
  | [], devicesInfos => devicesInfos
  | none :: rest, devicesInfos => collectInterface rest devicesInfos
  | some device_info :: rest, devicesInfos =>
    collectInterface rest (devicesInfos ++ [device_info])

/-- The outer loop of `scanDevices` (lines 75-85): visit the non-null interfaces in
index order. -/
def collectDevices : List (Option PvInterface) → List PvDeviceInfo → List PvDeviceInfo
  | [], devicesInfos => devicesInfos
  | none :: rest, devicesInfos => collectDevices rest devicesInfos
  | some interface :: rest, devicesInfos =>
    collectDevices rest (collectInterface interface.devices devicesInfos)

/-- The search loop of `scanDevices` (lines 92-99): the first descriptor that is a
`PvDeviceInfoGEV` with the wanted address, or `none` when the loop runs to its end. -/
def selectByAddress (ipAddress : String) : List PvDeviceInfo → Option PvDeviceInfo
  | [] => none
  | di :: rest =>
    match di.gev with
    | some dig => if dig.ipAddress = ipAddress then some di else selectByAddress ipAddress rest
    | none => selectByAddress ipAddress rest

/-- Lines 87-102 of `scanDevices`: the choice among the collected descriptors. -/
def selectDevice (devicesInfos : List PvDeviceInfo) (ipAddress : String) :
    Except Failure PvDeviceInfo :=
  match devicesInfos with
  | [] => .error (.cameraException "Unable to connect to mDevice: 'devicesInfos' is empty.")
  | first :: _ =>
    if ipAddress ≠ "" then
      match selectByAddress ipAddress devicesInfos with
      | some di => .ok di
      | none => .ok first
    else .ok first

/-- The descriptor list a scan collects from the interfaces it sees. -/
def scannedDevices (interfaces : List (Option PvInterface)) : List PvDeviceInfo :=
  collectDevices interfaces []

/-- Embedding of `scanDevices` (lines 66-103). -/
def scanDevices (net : Network) (pvSystem : Option PvSystem) (ipAddress : String)
    (tr : Trace) : Outcome (Option PvSystem) PvDeviceInfo :=
  match pvSystem with
  | none => ⟨none, tr, .error (.cameraException "Unable to scan devices: 'mSystem' is null.")⟩
  | some sys =>
    let sys1 := sys.Find net
    ⟨some sys1, tr ++ [.find], selectDevice (scannedDevices sys1.interfaces) ipAddress⟩

/-! ## `findDevice` -/

/-- The retry loop of `findDevice` (lines 147-153) followed by the `throw` of line 155;
`remaining` is `maxRetries - i`. -/
def rescanLoop (net : Network) (ipAddress : String) (waitTime : Int) :
    Nat → Option PvSystem → Trace → Outcome (Option PvSystem) PvDeviceInfo
  | 0, pvSystem, tr =>
    ⟨pvSystem, tr, .error (.cameraException "Unable to configure mDevice IP address")⟩
  | remaining + 1, pvSystem, tr =>
    let scanned := scanDevices net pvSystem ipAddress tr
    match scanned.result with
    | .error e => ⟨scanned.state, scanned.trace, .error e⟩
    | .ok _device_info =>
      match checkDeviceInfo (some _device_info) ipAddress with
      | .error e => ⟨scanned.state, scanned.trace, .error e⟩
      | .ok true => ⟨scanned.state, scanned.trace, .ok _device_info⟩
      | .ok false =>
        rescanLoop net ipAddress waitTime remaining scanned.state
          (scanned.trace ++ [.sleep waitTime])

/-- Lines 120-156 of `findDevice`: what happens once the fast path has not returned. -/
def findDeviceScan (net : Network) (pvSystem : Option PvSystem) (ipAddress : String)
    (maxRetries : Int) (waitTime : Int) (tr : Trace) :
    Outcome (Option PvSystem) PvDeviceInfo :=
  let scanned := scanDevices net pvSystem ipAddress tr
  match scanned.result with
  | .error e => ⟨scanned.state, scanned.trace, .error e⟩
  | .ok _device_info =>
    match checkDeviceInfo (some _device_info) ipAddress with
    | .error e => ⟨scanned.state, scanned.trace, .error e⟩
    | .ok true => ⟨scanned.state, scanned.trace, .ok _device_info⟩
    | .ok false =>
      if ipAddress = "" then
        ⟨scanned.state, scanned.trace, .error (.cameraException
          "Device does not have a valid IP and it were not provided")⟩
      else
        match _device_info.gev with
        | some device_info_gev =>
          let result := net.setIPConfiguration device_info_gev.macAddress ipAddress
            device_info_gev.subnetMask device_info_gev.defaultGateway
          let tr2 := scanned.trace ++ [.setIPConfiguration device_info_gev.macAddress
            ipAddress device_info_gev.subnetMask device_info_gev.defaultGateway]
          if !result.IsOK then
            ⟨scanned.state, tr2,
              .error (.cameraException "Unable to configure mDevice IP address")⟩
          else
            rescanLoop net ipAddress waitTime maxRetries.toNat scanned.state tr2
        | none =>
          ⟨scanned.state, scanned.trace,
            .error (.cameraException "Unable to configure mDevice IP address")⟩

/-- Embedding of `findDevice` (lines 105-156). The loop `for (int i = 0; i < maxRetries; i++)`
runs `maxRetries.toNat` times (not at all for a negative `maxRetries`). -/
def findDevice (net : Network) (pvSystem : Option PvSystem) (deviceInfo : Option PvDeviceInfo)
    (ipAddress : String) (maxRetries : Int) (waitTime : Int) (tr : Trace) :
    Outcome (Option PvSystem) PvDeviceInfo :=
  match pvSystem with
  | none =>
    ⟨none, tr, .error (.cameraException "Unable to connect to mDevice: 'mSystem' is null.")⟩
  | some _ =>
    match deviceInfo with
    | some d =>
      -- `nullptr != deviceInfo && checkDeviceInfo(deviceInfo, ipAddress)`
      match checkDeviceInfo (some d) ipAddress with
      | .error e => ⟨pvSystem, tr, .error e⟩
      | .ok true => ⟨pvSystem, tr, .ok d⟩
      | .ok false => findDeviceScan net pvSystem ipAddress maxRetries waitTime tr
    | none => findDeviceScan net pvSystem ipAddress maxRetries waitTime tr

/-! ## Devices, streams and buffers -/

/-- Modelled from the spec: the dynamic type of a GenICam parameter (`PvGenCommand`,
`PvGenFloat`, ... of the SDK headers), which `dynamic_cast` inspects. -/
inductive PvGenType where
  | PvGenTypeCommand
  | PvGenTypeFloat
  | PvGenTypeInteger
deriving DecidableEq, Repr

/-- Modelled from the spec: a `PvGenParameterArray`, the named parameters of a device or
of a stream. -/
abbrev PvGenParameterArray := List (String × PvGenType)

/-- The expression `dynamic_cast<PvGenCommand *>(params->Get(name))`: the command of that
name, `none` (a null pointer) when there is no such parameter or it is not a command. -/
def getCommand (params : PvGenParameterArray) (name : String) : Option String :=
  match params.lookup name with
  | some .PvGenTypeCommand => some name
  | _ => none

/-- The expression `dynamic_cast<PvGenFloat *>(params->Get(name))`. -/
def getFloat (params : PvGenParameterArray) (name : String) : Option String :=
  match params.lookup name with
  | some .PvGenTypeFloat => some name
  | _ => none

/-- Modelled from the spec: an open control session (`PvDevice`). `gev` tells whether
`dynamic_cast<PvDeviceGEV *>` succeeds on it. -/
structure PvDevice where
  gev : Bool
  payloadSize : Nat
  parameters : PvGenParameterArray
deriving DecidableEq, Repr

/-- The part of a stream that only the GigE Vision variant `PvStreamGEV` has. -/
structure PvStreamGEV where
  localIPAddress : String
  localPort : Nat
deriving DecidableEq, Repr

/-- A retrieved buffer as the code reads it: its pointer, `GetPayloadType()` and
`GetBlockID()`. -/
structure PvBuffer where
  ptr : BufferPtr
  payloadType : PvPayloadType
  blockID : Nat
deriving DecidableEq, Repr

/-- Modelled from the spec: an open data session (`PvStream`). `pending` are the buffers
queued and waiting for data, oldest first; `ready` are the buffers that can be
retrieved at once, each with its operation result; `gev` is `some` exactly when
`dynamic_cast<PvStreamGEV *>` succeeds. -/
structure PvStream where
  gev : Option PvStreamGEV
  queuedBufferMaximum : Nat
  pending : List BufferPtr
  ready : List (PvBuffer × PvResult)
  parameters : PvGenParameterArray
deriving DecidableEq, Repr

/-- What the camera sends for one frame: the payload kind and block id it writes into the
buffer, and the operation result it is delivered with. -/
structure Frame where
  payloadType : PvPayloadType
  blockID : Nat
  operationResult : PvResult
deriving DecidableEq, Repr

/-- The three outputs of `PvStream::RetrieveBuffer`. -/
structure Retrieved where
  result : PvResult
  buffer : Option PvBuffer
  operationResult : PvResult
deriving DecidableEq, Repr

/-- Modelled from the spec: `PvStream::GetQueuedBufferCount`, the number of buffers the
stream holds. -/
def PvStream.GetQueuedBufferCount (s : PvStream) : Nat :=
  s.pending.length + s.ready.length

/-- Modelled from the spec: `PvStream::QueueBuffer`. The stream takes the buffer when it
holds fewer than `GetQueuedBufferMaximum()` buffers and refuses it otherwise; the
code never looks at the result. -/
def PvStream.QueueBuffer (s : PvStream) (buffer : BufferPtr) : PvStream :=
  if s.GetQueuedBufferCount < s.queuedBufferMaximum then
    { s with pending := s.pending ++ [buffer] }
  else s

/-- Modelled from the spec: `PvStream::AbortQueuedBuffers`: every queued buffer becomes
retrievable, with the operation result `ABORTED`. -/
def PvStream.AbortQueuedBuffers (s : PvStream) : PvStream :=
  { s with
    pending := []
    ready := s.ready ++ s.pending.map
      (fun b => (⟨b, .PvPayloadTypeUndefined, 0⟩, ⟨1, "ABORTED"⟩)) }

/-- Modelled from the spec: `PvStream::RetrieveBuffer`. A ready buffer is handed out
first; otherwise, if the camera delivers a frame before the timeout (`incoming`), the
oldest pending buffer is handed out with that frame; otherwise the call fails with
`TIMEOUT` and hands out no buffer. -/
def PvStream.RetrieveBuffer (s : PvStream) (incoming : Option Frame) : PvStream × Retrieved :=
  match s.ready with
  | (buffer, operationResult) :: rest =>
    ({ s with ready := rest }, ⟨⟨0, "OK"⟩, some buffer, operationResult⟩)
  | [] =>
    match incoming, s.pending with
    | some frame, b :: rest =>
      ({ s with pending := rest },
        ⟨⟨0, "OK"⟩, some ⟨b, frame.payloadType, frame.blockID⟩, frame.operationResult⟩)
    | _, _ => (s, ⟨⟨30, "TIMEOUT"⟩, none, ⟨0, "OK"⟩⟩)

/-! ## `configStream` -/

/-- Embedding of `configStream` (lines 193-213). -/
def configStream (device : Option PvDevice) (stream : Option PvStream) (tr : Trace) :
    Outcome Unit Unit :=
  match device with
  | none =>
    ⟨(), tr, .error (.cameraException "Unable to create mStream buffers: 'mDevice' is null.")⟩
  | some dev =>
    match stream with
    | none =>
      ⟨(), tr, .error (.cameraException "Unable to create mStream buffers: 'mStream' is null.")⟩
    | some st =>
      if !dev.gev then
        ⟨(), tr, .error (.cameraException "Unable to configure mStream: 'deviceGev' is null.")⟩
      else
        let tr1 := tr ++ [.negotiatePacketSize]
        -- `streamGev` is not tested against null before `streamGev->GetLocalIPAddress()`
        match st.gev with
        | none => ⟨(), tr1, .error .nullDereference⟩
        | some streamGev =>
          ⟨(), tr1 ++ [.setStreamDestination streamGev.localIPAddress streamGev.localPort],
            .ok ()⟩

/-! ## The buffer pool: `createStreamBuffers` and `clearStreamBuffers` -/

/-- The macro `BUFFER_COUNT` (line 14). -/
def BUFFER_COUNT : Nat := 16

/-- The `BufferList` of line 15: the pointers to the buffers of the pool. -/
abbrev BufferList := List BufferPtr

/-- What the buffer pool functions read and write: the stream, the list `*buffers`, and
the pointer the next `new PvBuffer` yields. -/
structure PoolState where
  stream : Option PvStream
  buffers : BufferList
  nextBuffer : BufferPtr
deriving DecidableEq, Repr

/-- The allocation loop of `createStreamBuffers` (lines 232-239); `remaining` is
`bufferCount - i`. The result of `Alloc` is recorded in the trace and otherwise
dropped, as in the code. -/
def allocLoop (alloc : BufferPtr → Nat → PvResult) (payloadSize : Nat) :
    Nat → BufferList → BufferPtr → Trace → BufferList × BufferPtr × Trace
  | 0, buffers, nextBuffer, tr => (buffers, nextBuffer, tr)
  | remaining + 1, buffers, nextBuffer, tr =>
    let buffer := nextBuffer
    allocLoop alloc payloadSize remaining (buffers ++ [buffer]) (nextBuffer + 1)
      (tr ++ [.newBuffer buffer, .alloc buffer payloadSize (alloc buffer payloadSize).IsOK])

/-- The queueing loop of `createStreamBuffers` (lines 242-246), over the list from `it`
to its end. -/
def queueLoop : List BufferPtr → PvStream → Trace → PvStream × Trace
  | [], stream, tr => (stream, tr)
  | buffer :: rest, stream, tr =>
    queueLoop rest (stream.QueueBuffer buffer) (tr ++ [.queueBuffer buffer])

/-- Embedding of `createStreamBuffers` (lines 215-247), with the requested number of
buffers as a parameter; the code has `requestedCount = BUFFER_COUNT`. -/
def createStreamBuffersWith (requestedCount : Nat) (alloc : BufferPtr → Nat → PvResult)
    (device : Option PvDevice) (stream : Option PvStream) (buffers : BufferList)
    (nextBuffer : BufferPtr) (tr : Trace) : Outcome PoolState Unit :=
  match device with
  | none =>
    ⟨⟨stream, buffers, nextBuffer⟩, tr,
      .error (.cameraException "Unable to create mStream buffers: 'mDevice' is null.")⟩
  | some dev =>
    match stream with
    | none =>
      ⟨⟨stream, buffers, nextBuffer⟩, tr,
        .error (.cameraException "Unable to create mStream buffers: 'mStream' is null.")⟩
    | some st =>
      let payloadSize := dev.payloadSize
      let maxBufferCount := st.queuedBufferMaximum
      let bufferCount := if maxBufferCount < requestedCount then maxBufferCount else requestedCount
      let allocated := allocLoop alloc payloadSize bufferCount buffers nextBuffer tr
      let queued := queueLoop allocated.1 st allocated.2.2
      ⟨⟨some queued.1, allocated.1, allocated.2.1⟩, queued.2, .ok ()⟩

/-- Embedding of `createStreamBuffers` (lines 215-247). -/
def createStreamBuffers (alloc : BufferPtr → Nat → PvResult)
    (device : Option PvDevice) (stream : Option PvStream) (buffers : BufferList)
    (nextBuffer : BufferPtr) (tr : Trace) : Outcome PoolState Unit :=
  createStreamBuffersWith BUFFER_COUNT alloc device stream buffers nextBuffer tr

/-- The retrieval loop of `clearStreamBuffers` (lines 253-257). `fuel` bounds the number
of iterations; `none` means the bound was reached with buffers still queued. -/
def retrieveLoop : Nat → PvStream → Trace → Option (PvStream × Trace)
  | fuel, stream, tr =>
    if stream.GetQueuedBufferCount > 0 then
      match fuel with
      | 0 => none
      | fuel1 + 1 =>
        retrieveLoop fuel1 (stream.RetrieveBuffer none).1 (tr ++ [.retrieveBuffer])
    else some (stream, tr)

/-- The deletion loop of `clearStreamBuffers` (lines 260-264). -/
def deleteLoop : List BufferPtr → Trace → Trace
  | [], tr => tr
  | buffer :: rest, tr => deleteLoop rest (tr ++ [.deleteBuffer buffer])

/-- Embedding of `clearStreamBuffers` (lines 249-267). The function does not test
`stream` against null. The result is `none` when `fuel` iterations of the retrieval
loop do not empty the stream. -/
def clearStreamBuffers (fuel : Nat) (stream : Option PvStream) (buffers : BufferList)
    (nextBuffer : BufferPtr) (tr : Trace) : Option (Outcome PoolState Unit) :=
  match stream with
  | none => some ⟨⟨none, buffers, nextBuffer⟩, tr, .error .nullDereference⟩
  | some st =>
    match retrieveLoop fuel st.AbortQueuedBuffers (tr ++ [.abortQueuedBuffers]) with
    | none => none
    | some (st1, tr1) =>
      some ⟨⟨some st1, [], nextBuffer⟩, deleteLoop buffers tr1, .ok ()⟩

/-! ## `acquireImage` -/

/-- The macros of lines 18-21. -/
def ACQUISITION_START_CMD : String := "AcquisitionStart"
def ACQUISITION_STOP_CMD : String := "AcquisitionStop"
def ACQUISITION_RATE_CMD : String := "AcquisitionRate"
def BANDWIDTH_CMD : String := "Bandwidth"

/-- Lines 317-353 of `acquireImage`: what is done with the outputs of `RetrieveBuffer`,
up to and including the requeue. `stream` is the stream after the retrieval. The inner
`if`/`else` on `operationResult` (lines 318-346) either throws or falls through to the
requeue of line 348. -/
def processRetrieved (stream : PvStream) (retrieved : Retrieved)
    (frameRate bandwidth : Option String) (out_path : String) (tr : Trace) :
    Outcome PvStream Unit :=
  if retrieved.result.IsOK then
    let inner : Trace × Except Failure Unit :=
      if retrieved.operationResult.IsOK then
        match frameRate with
        | none => (tr, .error .nullDereference)
        | some rate =>
          match bandwidth with
          | none => (tr ++ [.getValue rate], .error .nullDereference)
          | some width =>
            let tr1 := tr ++ [.getValue rate, .getValue width]
            match retrieved.buffer with
            | none => (tr1, .error .nullDereference)
            | some buffer =>
              if buffer.payloadType = .PvPayloadTypeImage then
                if buffer.blockID ≠ 0 then
                  (tr1 ++ [.store buffer.ptr out_path .PvBufferFormatTIFF], .ok ())
                else (tr1, .ok ())
              else (tr1, .error (.cameraException "Buffer does not contain an image"))
      else
        (tr, .error (.cameraException
          ("Buffer retrieve operation error: " ++ retrieved.operationResult.codeString)))
    match inner, retrieved.buffer with
    | (tr2, .error e), _ => ⟨stream, tr2, .error e⟩
    -- not reached: the inner block ends normally only after reading through `buffer`
    | (tr2, .ok ()), none => ⟨stream, tr2, .error .nullDereference⟩
    | (tr2, .ok ()), some buffer =>
      -- Re-queue the buffer in the mStream object
      ⟨stream.QueueBuffer buffer.ptr, tr2 ++ [.queueBuffer buffer.ptr], .ok ()⟩
  else
    ⟨stream, tr, .error (.cameraException
      ("Buffer failure: " ++ retrieved.result.codeString))⟩

/-- Embedding of `acquireImage` (lines 280-360). `incoming` is the frame, if any, that the
camera delivers within the timeout of the `RetrieveBuffer` call. -/
def acquireImage (device : Option PvDevice) (stream : Option PvStream) (out_path : String)
    (incoming : Option Frame) (tr : Trace) : Outcome (Option PvStream) Unit :=
  match device with
  | none =>
    ⟨stream, tr, .error (.cameraException "Unable to create mStream buffers: 'mDevice' is null.")⟩
  | some dev =>
    match stream with
    | none =>
      ⟨none, tr, .error (.cameraException "Unable to create mStream buffers: 'mStream' is null.")⟩
    | some st =>
      let startCmd := getCommand dev.parameters ACQUISITION_START_CMD
      let stopCmd := getCommand dev.parameters ACQUISITION_STOP_CMD
      let frameRate := getFloat st.parameters ACQUISITION_RATE_CMD
      let bandwidth := getFloat st.parameters BANDWIDTH_CMD
      let tr1 := tr ++ [.streamEnable]
      match startCmd with
      | none => ⟨some st, tr1, .error .nullDereference⟩
      | some start =>
        let tr2 := tr1 ++ [.execute start]
        let retrieval := st.RetrieveBuffer incoming
        let processed :=
          processRetrieved retrieval.1 retrieval.2 frameRate bandwidth out_path
            (tr2 ++ [.retrieveBuffer])
        match processed.result with
        | .error e => ⟨some processed.state, processed.trace, .error e⟩
        | .ok () =>
          match stopCmd with
          | none => ⟨some processed.state, processed.trace, .error .nullDereference⟩
          | some stop =>
            ⟨some processed.state, processed.trace ++ [.execute stop, .streamDisable], .ok ()⟩

/-! ## Observations on traces -/

/-- Number of network scans (`Find` calls) in a trace. -/
def scanCount (tr : Trace) : Nat := tr.count .find

/-- Whether an event is a configuration command (`SetIPConfiguration`). -/
def Event.isConfigurationCommand : Event → Bool
  | .setIPConfiguration _ _ _ _ => true
  | _ => false

/-- Whether an event is an invocation of the image encoder (`PvBufferWriter::Store`). -/
def Event.isStore : Event → Bool
  | .store _ _ _ => true
  | _ => false

/-- The trace of `n` failed re-scan attempts: a scan, then a sleep, `n` times. -/
def failedRescans (waitTime : Int) (n : Nat) : Trace :=
  (List.replicate n [Event.find, Event.sleep waitTime]).flatten

/-- The events of the allocation loop for the `n` buffers from pointer `first` on: each
buffer object is created, then asked to allocate its payload memory. -/
def allocEvents (alloc : BufferPtr → Nat → PvResult) (payloadSize : Nat) (first n : Nat) :
    Trace :=
  ((List.range' first n).map
    (fun b => [Event.newBuffer b, Event.alloc b payloadSize (alloc b payloadSize).IsOK])).flatten

/-! ## Example data -/

/-- A connected GigE Vision camera with the two acquisition commands. -/
def camDevice : PvDevice :=
  ⟨true, 1024, [("AcquisitionStart", .PvGenTypeCommand), ("AcquisitionStop", .PvGenTypeCommand)]⟩

/-- A GigE Vision stream of queue depth `depth` holding the pending buffers `pending`. -/
def camStream (depth : Nat) (pending : List BufferPtr) : PvStream :=
  ⟨some ⟨"192.168.1.2", 50000⟩, depth, pending, [],
    [("AcquisitionRate", .PvGenTypeFloat), ("Bandwidth", .PvGenTypeFloat)]⟩

/-- A stream that is not a `PvStreamGEV` (a USB3 Vision stream). -/
def usbStream : PvStream :=
  ⟨none, 8, [], [], [("AcquisitionRate", .PvGenTypeFloat), ("Bandwidth", .PvGenTypeFloat)]⟩

/-- An allocator that fails for the buffer with pointer `1` and succeeds otherwise. -/
def allocFailingAt1 : BufferPtr → Nat → PvResult :=
  fun b _ => if b = 1 then ⟨24, "NOT_ENOUGH_MEMORY"⟩ else ⟨0, "OK"⟩

/-- An allocator that always succeeds. -/
def allocOK : BufferPtr → Nat → PvResult := fun _ _ => ⟨0, "OK"⟩

/-- A GigE Vision descriptor with the given address and validity flag. -/
def gevInfo (ip : String) (valid : Bool) : PvDeviceInfo :=
  ⟨"cam", "conn", valid, some ⟨ip, "AA:BB:CC:DD:EE:FF", "255.255.255.0", "192.168.1.1"⟩⟩

/-- A USB3 Vision descriptor: not a `PvDeviceInfoGEV`. -/
def usbInfo (valid : Bool) : PvDeviceInfo := ⟨"usbcam", "usb0", valid, none⟩

/-- A network on which the camera has an unusable address during the first `n` scans and
the address `192.168.1.140` afterwards. -/
def lateNetwork (n : Nat) : Network where
  scan := fun i =>
    if i < n then [some ⟨[some (gevInfo "169.254.7.7" false)]⟩]
    else [some ⟨[some (gevInfo "192.168.1.140" true)]⟩]
  setIPConfiguration := fun _ _ _ _ => ⟨0, "OK"⟩

/-- A network whose camera never takes a valid configuration. -/
def deadNetwork : Network where
  scan := fun _ => [some ⟨[some (gevInfo "169.254.7.7" false)]⟩]
  setIPConfiguration := fun _ _ _ _ => ⟨0, "OK"⟩

/-- A network with two interfaces, one of them null, and three devices. -/
def mixedNetwork : Network where
  scan := fun _ =>
    [some ⟨[some (usbInfo true), none]⟩, none,
     some ⟨[some (gevInfo "10.0.0.5" true), some (gevInfo "192.168.1.140" true)]⟩]
  setIPConfiguration := fun _ _ _ _ => ⟨0, "OK"⟩

/-! ## Properties of `scanDevices` -/

theorem collectInterface_eq (devs : List (Option PvDeviceInfo)) (acc : List PvDeviceInfo) :
    collectInterface devs acc = acc ++ devs.filterMap id := by
  induction devs generalizing acc with
  | nil => simp [collectInterface]
  | cons d rest ih =>
    cases d with
    | none => simp [collectInterface, ih]
    | some x => simp [collectInterface, ih]

theorem collectDevices_eq (ifs : List (Option PvInterface)) (acc : List PvDeviceInfo) :
    collectDevices ifs acc
      = acc ++ ((ifs.filterMap id).map (fun i => i.devices.filterMap id)).flatten := by
  induction ifs generalizing acc with
  | nil => simp [collectDevices]
  | cons i rest ih =>
    cases i with
    | none => simp [collectDevices, ih]
    | some x => simp [collectDevices, ih, collectInterface_eq]

theorem selectByAddress_some {t : String} {ds : List PvDeviceInfo} {d : PvDeviceInfo}
    (h : selectByAddress t ds = some d) :
    ∃ i : Nat, ds[i]? = some d ∧ d.address = some t ∧
      ∀ j : Nat, j < i → ∀ e : PvDeviceInfo, ds[j]? = some e → e.address ≠ some t := by
  induction ds with
  | nil => simp [selectByAddress] at h
  | cons x rest ih =>
    unfold selectByAddress at h
    cases hg : x.gev with
    | none =>
      rw [hg] at h
      obtain ⟨i, hi, ha, hb⟩ := ih h
      refine ⟨i + 1, by simpa using hi, ha, ?_⟩
      intro j hj e he
      cases j with
      | zero =>
        simp at he
        subst he
        simp [PvDeviceInfo.address, hg]
      | succ j => exact hb j (by omega) e (by simpa using he)
    | some g =>
      rw [hg] at h
      by_cases hip : g.ipAddress = t
      · simp [hip] at h
        subst h
        exact ⟨0, by simp, by simp [PvDeviceInfo.address, hg, hip], by intro j hj; omega⟩
      · simp [hip] at h
        obtain ⟨i, hi, ha, hb⟩ := ih h
        refine ⟨i + 1, by simpa using hi, ha, ?_⟩
        intro j hj e he
        cases j with
        | zero =>
          simp at he
          subst he
          simp [PvDeviceInfo.address, hg, hip]
        | succ j => exact hb j (by omega) e (by simpa using he)

theorem selectByAddress_none {t : String} {ds : List PvDeviceInfo}
    (h : selectByAddress t ds = none) : ∀ d ∈ ds, d.address ≠ some t := by
  induction ds with
  | nil => simp
  | cons x rest ih =>
    unfold selectByAddress at h
    cases hg : x.gev with
    | none =>
      rw [hg] at h
      intro d hd
      rcases List.mem_cons.mp hd with rfl | hd
      · simp [PvDeviceInfo.address, hg]
      · exact ih h d hd
    | some g =>
      rw [hg] at h
      by_cases hip : g.ipAddress = t
      · simp [hip] at h
      · simp [hip] at h
        intro d hd
        rcases List.mem_cons.mp hd with rfl | hd
        · simp [PvDeviceInfo.address, hg, hip]
        · exact ih h d hd

theorem scanDevices_some (net : Network) (sys : PvSystem) (t : String) (tr : Trace) :
    scanDevices net (some sys) t tr
      = ⟨some (sys.Find net), tr ++ [.find],
          selectDevice (scannedDevices (net.scan sys.finds)) t⟩ := rfl

/-- C10. Whenever a scan collects a non-empty descriptor list (the non-null descriptors of
the non-null interfaces, interface by interface and device by device in index order),
`scanDevices` returns a member of that list: with a supplied (non-empty) target address
that some collected descriptor has, the first descriptor in list order with that
address; with no target, or when no collected descriptor has the target address, the
first descriptor of the list. -/
theorem scanDevices_selection (net : Network) (sys : PvSystem) (ipAddress : String)
    (tr : Trace) (hne : scannedDevices (net.scan sys.finds) ≠ []) :
    scannedDevices (net.scan sys.finds)
        = (((net.scan sys.finds).filterMap id).map (fun i => i.devices.filterMap id)).flatten ∧
    ∃ d, (scanDevices net (some sys) ipAddress tr).result = .ok d ∧
      d ∈ scannedDevices (net.scan sys.finds) ∧
      ((ipAddress ≠ "" ∧ ∃ e ∈ scannedDevices (net.scan sys.finds), e.address = some ipAddress) →
        ∃ i : Nat, (scannedDevices (net.scan sys.finds))[i]? = some d ∧
          d.address = some ipAddress ∧
          ∀ j : Nat, j < i → ∀ e : PvDeviceInfo,
            (scannedDevices (net.scan sys.finds))[j]? = some e → e.address ≠ some ipAddress) ∧
      ((ipAddress = "" ∨ ∀ e ∈ scannedDevices (net.scan sys.finds), e.address ≠ some ipAddress) →
        (scannedDevices (net.scan sys.finds)).head? = some d) := by
  refine ⟨by simp [scannedDevices, collectDevices_eq], ?_⟩
  rw [scanDevices_some]
  generalize scannedDevices (net.scan sys.finds) = ds at hne ⊢
  cases ds with
  | nil => exact absurd rfl hne
  | cons first rest =>
    by_cases ht : ipAddress = ""
    · refine ⟨first, by simp [selectDevice, ht], by simp, ?_, by simp⟩
      rintro ⟨hn, -⟩
      exact absurd ht hn
    · cases hsel : selectByAddress ipAddress (first :: rest) with
      | none =>
        refine ⟨first, by simp [selectDevice, ht, hsel], by simp, ?_, by simp⟩
        rintro ⟨-, e, he, hea⟩
        exact absurd hea (selectByAddress_none hsel e he)
      | some d =>
        obtain ⟨i, hi, ha, hb⟩ := selectByAddress_some hsel
        refine ⟨d, by simp [selectDevice, ht, hsel], List.getElem?_mem hi,
          fun _ => ⟨i, hi, ha, hb⟩, ?_⟩
        rintro (h | h)
        · exact absurd h ht
        · exact absurd ha (h d (List.getElem?_mem hi))

/-- Witness of C10 on a scan with a null interface, a null descriptor, a USB3 device and
two GigE Vision devices, asking for the address of the last one. -/
theorem scanDevices_selection_witness :
    scannedDevices (mixedNetwork.scan 0) ≠ [] ∧
    scannedDevices (mixedNetwork.scan 0)
      = [usbInfo true, gevInfo "10.0.0.5" true, gevInfo "192.168.1.140" true] ∧
    (scanDevices mixedNetwork (some ⟨0, []⟩) "192.168.1.140" []).result
      = .ok (gevInfo "192.168.1.140" true) ∧
    (scanDevices mixedNetwork (some ⟨0, []⟩) "" []).result = .ok (usbInfo true) ∧
    ∃ d, (scanDevices mixedNetwork (some ⟨0, []⟩) "192.168.1.140" []).result = .ok d ∧
      d ∈ scannedDevices (mixedNetwork.scan 0) :=
  ⟨by decide, by decide, by decide, by decide,
   let h := (scanDevices_selection mixedNetwork ⟨0, []⟩ "192.168.1.140" [] (by decide)).2
   ⟨h.choose, h.choose_spec.1, h.choose_spec.2.1⟩⟩

/-! ## Properties of `findDevice` -/

theorem checkDeviceInfo_of_valid_match (d : PvDeviceInfo) (t : String)
    (hvalid : d.configurationValid = true) (hmatch : t = "" ∨ d.address = some t) :
    checkDeviceInfo (some d) t = .ok true := by
  rcases hmatch with h | h
  · simp [checkDeviceInfo, hvalid, h]
  · cases hg : d.gev with
    | none => simp [PvDeviceInfo.address, hg] at h
    | some g =>
      simp [PvDeviceInfo.address, hg] at h
      by_cases ht : t = "" <;> simp [checkDeviceInfo, hvalid, hg, h, ht]

theorem failedRescans_succ (w : Int) (n : Nat) :
    failedRescans w (n + 1) = [Event.find, Event.sleep w] ++ failedRescans w n := by
  simp [failedRescans, List.replicate_succ]

theorem scanCount_failedRescans (w : Int) (n : Nat) : scanCount (failedRescans w n) = n := by
  induction n with
  | zero => simp [failedRescans, scanCount]
  | succ n ih =>
    rw [failedRescans_succ]
    simp only [scanCount] at ih ⊢
    rw [List.count_append, ih]
    simp [List.count_cons]
    omega

theorem filter_isConfigurationCommand_failedRescans (w : Int) (n : Nat) :
    (failedRescans w n).filter Event.isConfigurationCommand = [] := by
  induction n with
  | zero => simp [failedRescans]
  | succ n ih =>
    rw [failedRescans_succ, List.filter_append, ih]
    simp [Event.isConfigurationCommand]

/-- The retry loop when each of its `n` scans selects a descriptor that fails the check. -/
theorem rescanLoop_exhausted (net : Network) (t : String) (w : Int) (n : Nat) :
    ∀ (sys : PvSystem) (tr : Trace),
      (∀ i : Nat, i < n → ∃ d : PvDeviceInfo,
        selectDevice (scannedDevices (net.scan (sys.finds + i))) t = .ok d ∧
        checkDeviceInfo (some d) t = .ok false) →
      (rescanLoop net t w n (some sys) tr).result
          = .error (.cameraException "Unable to configure mDevice IP address") ∧
      (rescanLoop net t w n (some sys) tr).trace = tr ++ failedRescans w n ∧
      ∃ sys1 : PvSystem, (rescanLoop net t w n (some sys) tr).state = some sys1 ∧
        sys1.finds = sys.finds + n := by
  induction n with
  | zero =>
    intro sys tr _
    exact ⟨rfl, by simp [rescanLoop, failedRescans], sys, rfl, rfl⟩
  | succ n ih =>
    intro sys tr h
    obtain ⟨d, hsel, hchk⟩ := h 0 (by omega)
    simp only [Nat.add_zero] at hsel
    have hrest : ∀ i : Nat, i < n → ∃ d : PvDeviceInfo,
        selectDevice (scannedDevices (net.scan ((sys.Find net).finds + i))) t = .ok d ∧
        checkDeviceInfo (some d) t = .ok false := by
      intro i hi
      have := h (i + 1) (by omega)
      simpa [PvSystem.Find, Nat.add_assoc, Nat.add_comm 1 i] using this
    obtain ⟨h1, h2, sys1, h3, h4⟩ := ih (sys.Find net) (tr ++ [.find] ++ [.sleep w]) hrest
    have hstep : rescanLoop net t w (n + 1) (some sys) tr
        = rescanLoop net t w n (some (sys.Find net)) (tr ++ [.find] ++ [.sleep w]) := by
      simp [rescanLoop, scanDevices_some, hsel, hchk]
    rw [hstep]
    refine ⟨h1, ?_, sys1, h3, ?_⟩
    · rw [h2, failedRescans_succ]
      simp
    · rw [h4]
      simp [PvSystem.Find]
      omega

/-- The retry loop when its first `k` scans select a descriptor that fails the check and
the next one selects a descriptor that passes it. -/
theorem rescanLoop_success (net : Network) (t : String) (w : Int) (k : Nat) :
    ∀ (m : Nat) (sys : PvSystem) (tr : Trace) (dk : PvDeviceInfo),
      (∀ i : Nat, i < k → ∃ d : PvDeviceInfo,
        selectDevice (scannedDevices (net.scan (sys.finds + i))) t = .ok d ∧
        checkDeviceInfo (some d) t = .ok false) →
      selectDevice (scannedDevices (net.scan (sys.finds + k))) t = .ok dk →
      checkDeviceInfo (some dk) t = .ok true →
      rescanLoop net t w (k + 1 + m) (some sys) tr
        = ⟨some ⟨sys.finds + k + 1, net.scan (sys.finds + k)⟩,
            tr ++ failedRescans w k ++ [.find], .ok dk⟩ := by
  induction k with
  | zero =>
    intro m sys tr dk _ hsel hchk
    simp only [Nat.add_zero] at hsel
    have : 0 + 1 + m = m + 1 := by omega
    rw [this]
    simp [rescanLoop, scanDevices_some, hsel, hchk, failedRescans, PvSystem.Find]
  | succ k ih =>
    intro m sys tr dk h hsel hchk
    obtain ⟨d, hsel0, hchk0⟩ := h 0 (by omega)
    simp only [Nat.add_zero] at hsel0
    have hrest : ∀ i : Nat, i < k → ∃ d : PvDeviceInfo,
        selectDevice (scannedDevices (net.scan ((sys.Find net).finds + i))) t = .ok d ∧
        checkDeviceInfo (some d) t = .ok false := by
      intro i hi
      have := h (i + 1) (by omega)
      simpa [PvSystem.Find, Nat.add_assoc, Nat.add_comm 1 i] using this
    have hsel1 : selectDevice (scannedDevices (net.scan ((sys.Find net).finds + k))) t
        = .ok dk := by
      simpa [PvSystem.Find, Nat.add_assoc, Nat.add_comm 1 k] using hsel
    have hstep : rescanLoop net t w (k + 1 + 1 + m) (some sys) tr
        = rescanLoop net t w (k + 1 + m) (some (sys.Find net)) (tr ++ [.find] ++ [.sleep w]) := by
      have : k + 1 + 1 + m = (k + 1 + m) + 1 := by omega
      rw [this]
      simp [rescanLoop, scanDevices_some, hsel0, hchk0]
    rw [hstep, ih m (sys.Find net) _ dk hrest hsel1 hchk, failedRescans_succ]
    simp [PvSystem.Find, Nat.add_assoc, Nat.add_comm 1 k]

/-- Lines 120-146 of `findDevice` when the first scan selects a GigE Vision descriptor
that fails the check against a non-empty target and the configuration command succeeds:
the function issues the command and enters the retry loop. -/
theorem findDeviceScan_reconfigure (net : Network) (sys : PvSystem) (t : String)
    (maxRetries waitTime : Int) (tr : Trace) (d0 : PvDeviceInfo) (g : PvDeviceInfoGEV)
    (ht : t ≠ "")
    (hscan : selectDevice (scannedDevices (net.scan sys.finds)) t = .ok d0)
    (hcheck : checkDeviceInfo (some d0) t = .ok false)
    (hgev : d0.gev = some g)
    (hset : (net.setIPConfiguration g.macAddress t g.subnetMask g.defaultGateway).IsOK = true) :
    findDeviceScan net (some sys) t maxRetries waitTime tr
      = rescanLoop net t waitTime maxRetries.toNat (some (sys.Find net))
          (tr ++ [.find, .setIPConfiguration g.macAddress t g.subnetMask g.defaultGateway]) := by
  simp [findDeviceScan, scanDevices_some, hscan, hcheck, ht, hgev, hset]

/-- When the existing descriptor is absent or fails the check, `findDevice` goes on to
scan. -/
theorem findDevice_no_fast_path (net : Network) (sys : PvSystem)
    (deviceInfo : Option PvDeviceInfo) (t : String) (maxRetries waitTime : Int) (tr : Trace)
    (hexisting : deviceInfo = none ∨ checkDeviceInfo deviceInfo t = .ok false) :
    findDevice net (some sys) deviceInfo t maxRetries waitTime tr
      = findDeviceScan net (some sys) t maxRetries waitTime tr := by
  cases deviceInfo with
  | none => rfl
  | some d =>
    rcases hexisting with h | h
    · cases h
    · simp [findDevice, h]

/-- C4. Fast path: when the existing descriptor `d` is configuration-valid and the target
address is empty or equal to the address of `d`, `findDevice` returns `d` itself and
leaves the system and the trace untouched: no scan, no configuration command and no
sleep, whatever `maxRetries` and `waitTime` are. -/
theorem findDevice_fast_path (net : Network) (sys : PvSystem) (d : PvDeviceInfo) (t : String)
    (maxRetries waitTime : Int) (tr : Trace)
    (hvalid : d.configurationValid = true) (hmatch : t = "" ∨ d.address = some t) :
    (findDevice net (some sys) (some d) t maxRetries waitTime tr).result = .ok d ∧
    (findDevice net (some sys) (some d) t maxRetries waitTime tr).trace = tr ∧
    (findDevice net (some sys) (some d) t maxRetries waitTime tr).state = some sys := by
  simp [findDevice, checkDeviceInfo_of_valid_match d t hvalid hmatch]

/-- Witness of C4: a valid descriptor that has the target address, on a network where a
scan would not find a usable device. -/
theorem findDevice_fast_path_witness :
    (findDevice deadNetwork (some ⟨0, []⟩) (some (gevInfo "192.168.1.140" true))
        "192.168.1.140" 10 1 []).result = .ok (gevInfo "192.168.1.140" true) ∧
    (findDevice deadNetwork (some ⟨0, []⟩) (some (gevInfo "192.168.1.140" true))
        "192.168.1.140" 10 1 []).trace = [] ∧
    (findDevice deadNetwork (some ⟨0, []⟩) (some (gevInfo "192.168.1.140" true))
        "192.168.1.140" 10 1 []).state = some ⟨0, []⟩ :=
  findDevice_fast_path deadNetwork ⟨0, []⟩ (gevInfo "192.168.1.140" true) "192.168.1.140" 10 1 []
    (by decide) (Or.inr (by decide))

/-- C5. With no target address and no usable existing descriptor, when the scan locates a
descriptor that is not configuration-valid, `findDevice` fails with the exception
"Device does not have a valid IP and it were not provided" (the spec's
`NoAddressAvailable`) after that single scan: the trace gains one `find` and nothing
else, so no configuration command is issued and no re-scan is made. -/
theorem findDevice_no_address (net : Network) (sys : PvSystem)
    (deviceInfo : Option PvDeviceInfo) (maxRetries waitTime : Int) (tr : Trace)
    (d0 : PvDeviceInfo)
    (hexisting : deviceInfo = none ∨
      ∃ d : PvDeviceInfo, deviceInfo = some d ∧ d.configurationValid = false)
    (hscan : selectDevice (scannedDevices (net.scan sys.finds)) "" = .ok d0)
    (hinvalid : d0.configurationValid = false) :
    (findDevice net (some sys) deviceInfo "" maxRetries waitTime tr).result
      = .error (.cameraException "Device does not have a valid IP and it were not provided") ∧
    (findDevice net (some sys) deviceInfo "" maxRetries waitTime tr).trace = tr ++ [.find] := by
  have hex : deviceInfo = none ∨ checkDeviceInfo deviceInfo "" = .ok false := by
    rcases hexisting with h | ⟨d, rfl, hd⟩
    · exact Or.inl h
    · exact Or.inr (by simp [checkDeviceInfo, hd])
  rw [findDevice_no_fast_path net sys deviceInfo "" maxRetries waitTime tr hex]
  simp [findDeviceScan, scanDevices_some, hscan, checkDeviceInfo, hinvalid]

/-- Witness of C5: no existing descriptor, and a scan that finds a camera with an invalid
configuration. -/
theorem findDevice_no_address_witness :
    (findDevice deadNetwork (some ⟨0, []⟩) none "" 10 1 []).result
      = .error (.cameraException "Device does not have a valid IP and it were not provided") ∧
    (findDevice deadNetwork (some ⟨0, []⟩) none "" 10 1 []).trace = [] ++ [.find] :=
  findDevice_no_address deadNetwork ⟨0, []⟩ none 10 1 [] (gevInfo "169.254.7.7" false)
    (Or.inl rfl) (by decide) (by decide)

/-- C3. With a non-empty target address and `maxRetries >= 0`: when the existing descriptor
is unusable, the first scan selects a GigE Vision descriptor that fails the check, the
configuration command succeeds, and every re-scan selects a descriptor that fails the
check, `findDevice` fails with the exception "Unable to configure mDevice IP address"
thrown after the loop (the spec's `ReconfigurationTimeout`), having made exactly
`maxRetries` re-scans, each followed by a sleep; it returns no descriptor. -/
theorem findDevice_reconfiguration_timeout (net : Network) (sys : PvSystem)
    (deviceInfo : Option PvDeviceInfo) (t : String) (maxRetries waitTime : Int) (tr : Trace)
    (d0 : PvDeviceInfo) (g : PvDeviceInfoGEV)
    (ht : t ≠ "") (hmax : 0 ≤ maxRetries)
    (hexisting : deviceInfo = none ∨ checkDeviceInfo deviceInfo t = .ok false)
    (hscan : selectDevice (scannedDevices (net.scan sys.finds)) t = .ok d0)
    (hcheck : checkDeviceInfo (some d0) t = .ok false)
    (hgev : d0.gev = some g)
    (hset : (net.setIPConfiguration g.macAddress t g.subnetMask g.defaultGateway).IsOK = true)
    (hnever : ∀ i : Nat, (i : Int) < maxRetries → ∃ d : PvDeviceInfo,
      selectDevice (scannedDevices (net.scan (sys.finds + 1 + i))) t = .ok d ∧
      checkDeviceInfo (some d) t = .ok false) :
    (findDevice net (some sys) deviceInfo t maxRetries waitTime tr).result
      = .error (.cameraException "Unable to configure mDevice IP address") ∧
    ∃ rescans : Trace,
      (findDevice net (some sys) deviceInfo t maxRetries waitTime tr).trace
        = tr ++ [.find, .setIPConfiguration g.macAddress t g.subnetMask g.defaultGateway]
            ++ rescans ∧
      rescans = failedRescans waitTime maxRetries.toNat ∧
      (scanCount rescans : Int) = maxRetries := by
  rw [findDevice_no_fast_path net sys deviceInfo t maxRetries waitTime tr hexisting,
    findDeviceScan_reconfigure net sys t maxRetries waitTime tr d0 g ht hscan hcheck hgev hset]
  have hloop := rescanLoop_exhausted net t waitTime maxRetries.toNat (sys.Find net)
    (tr ++ [.find, .setIPConfiguration g.macAddress t g.subnetMask g.defaultGateway])
    (by
      intro i hi
      have := hnever i (by omega)
      simpa [PvSystem.Find] using this)
  refine ⟨hloop.1, failedRescans waitTime maxRetries.toNat, hloop.2.1, rfl, ?_⟩
  rw [scanCount_failedRescans]
  omega

/-- Witness of C3: a camera that never takes the address, with three retries. -/
theorem findDevice_reconfiguration_timeout_witness :
    (findDevice deadNetwork (some ⟨0, []⟩) none "192.168.1.140" 3 1 []).result
      = .error (.cameraException "Unable to configure mDevice IP address") ∧
    ∃ rescans : Trace,
      (findDevice deadNetwork (some ⟨0, []⟩) none "192.168.1.140" 3 1 []).trace
        = [] ++ [.find, .setIPConfiguration "AA:BB:CC:DD:EE:FF" "192.168.1.140"
            "255.255.255.0" "192.168.1.1"] ++ rescans ∧
      rescans = failedRescans 1 (3 : Int).toNat ∧
      (scanCount rescans : Int) = 3 :=
  findDevice_reconfiguration_timeout deadNetwork ⟨0, []⟩ none "192.168.1.140" 3 1 []
    (gevInfo "169.254.7.7" false) ⟨"169.254.7.7", "AA:BB:CC:DD:EE:FF", "255.255.255.0",
      "192.168.1.1"⟩
    (by decide) (by decide) (Or.inl rfl) (by decide) (by decide) rfl (by decide)
    (fun _ _ => ⟨gevInfo "169.254.7.7" false, by
      show selectDevice (scannedDevices [some ⟨[some (gevInfo "169.254.7.7" false)]⟩])
        "192.168.1.140" = .ok (gevInfo "169.254.7.7" false)
      decide, by decide⟩)

/-- C2. With a non-empty target address: when the existing descriptor is unusable, the first
scan selects a GigE Vision descriptor that fails the check, the configuration command
succeeds, the first `k` re-scans select descriptors that fail the check and the next
re-scan (loop index `k < maxRetries`) selects a descriptor `dk` that is valid and has
the target address, `findDevice` returns `dk`, has issued exactly one configuration
command, and has made `k + 1` re-scans, which is at most `maxRetries`; the last event
is the successful scan. -/
theorem findDevice_succeeds_after_rescans (net : Network) (sys : PvSystem)
    (deviceInfo : Option PvDeviceInfo) (t : String) (maxRetries waitTime : Int) (tr : Trace)
    (d0 dk : PvDeviceInfo) (g : PvDeviceInfoGEV) (k : Nat)
    (ht : t ≠ "") (hk : (k : Int) < maxRetries)
    (hexisting : deviceInfo = none ∨ checkDeviceInfo deviceInfo t = .ok false)
    (hscan : selectDevice (scannedDevices (net.scan sys.finds)) t = .ok d0)
    (hcheck : checkDeviceInfo (some d0) t = .ok false)
    (hgev : d0.gev = some g)
    (hset : (net.setIPConfiguration g.macAddress t g.subnetMask g.defaultGateway).IsOK = true)
    (hbefore : ∀ i : Nat, i < k → ∃ d : PvDeviceInfo,
      selectDevice (scannedDevices (net.scan (sys.finds + 1 + i))) t = .ok d ∧
      checkDeviceInfo (some d) t = .ok false)
    (hat : selectDevice (scannedDevices (net.scan (sys.finds + 1 + k))) t = .ok dk)
    (hvalid : dk.configurationValid = true) (haddress : dk.address = some t) :
    (findDevice net (some sys) deviceInfo t maxRetries waitTime tr).result = .ok dk ∧
    ∃ rescans : Trace,
      (findDevice net (some sys) deviceInfo t maxRetries waitTime tr).trace
        = tr ++ [.find, .setIPConfiguration g.macAddress t g.subnetMask g.defaultGateway]
            ++ rescans ∧
      rescans = failedRescans waitTime k ++ [.find] ∧
      scanCount rescans = k + 1 ∧ ((k + 1 : Nat) : Int) ≤ maxRetries ∧
      (([Event.find, .setIPConfiguration g.macAddress t g.subnetMask g.defaultGateway]
          ++ rescans).filter Event.isConfigurationCommand).length = 1 := by
  rw [findDevice_no_fast_path net sys deviceInfo t maxRetries waitTime tr hexisting,
    findDeviceScan_reconfigure net sys t maxRetries waitTime tr d0 g ht hscan hcheck hgev hset]
  obtain ⟨m, hm⟩ : ∃ m : Nat, maxRetries.toNat = k + 1 + m := ⟨maxRetries.toNat - (k + 1), by omega⟩
  rw [hm, rescanLoop_success net t waitTime k m (sys.Find net) _ dk
    (by
      intro i hi
      simpa [PvSystem.Find] using hbefore i hi)
    (by simpa [PvSystem.Find] using hat)
    (checkDeviceInfo_of_valid_match dk t hvalid (Or.inr haddress))]
  refine ⟨rfl, failedRescans waitTime k ++ [.find], by simp, rfl, ?_, by omega, ?_⟩
  · simp only [scanCount, List.count_append]
    have := scanCount_failedRescans waitTime k
    simp only [scanCount] at this
    rw [this]
    simp
  · simp [List.filter_append, filter_isConfigurationCommand_failedRescans,
      Event.isConfigurationCommand, List.filter_cons]

/-- Witness of C2: the camera shows the target address from the fifth scan on, that is
after the first scan and `k = 3` failed re-scans, with `maxRetries = 10`. -/
theorem findDevice_succeeds_after_rescans_witness :
    (findDevice (lateNetwork 4) (some ⟨0, []⟩) none "192.168.1.140" 10 1 []).result
      = .ok (gevInfo "192.168.1.140" true) ∧
    ∃ rescans : Trace,
      (findDevice (lateNetwork 4) (some ⟨0, []⟩) none "192.168.1.140" 10 1 []).trace
        = [] ++ [.find, .setIPConfiguration "AA:BB:CC:DD:EE:FF" "192.168.1.140"
            "255.255.255.0" "192.168.1.1"] ++ rescans ∧
      rescans = failedRescans 1 3 ++ [.find] ∧
      scanCount rescans = 3 + 1 ∧ ((3 + 1 : Nat) : Int) ≤ 10 ∧
      (([Event.find, .setIPConfiguration "AA:BB:CC:DD:EE:FF" "192.168.1.140"
            "255.255.255.0" "192.168.1.1"] ++ rescans).filter
          Event.isConfigurationCommand).length = 1 :=
  findDevice_succeeds_after_rescans (lateNetwork 4) ⟨0, []⟩ none "192.168.1.140" 10 1 []
    (gevInfo "169.254.7.7" false) (gevInfo "192.168.1.140" true)
    ⟨"169.254.7.7", "AA:BB:CC:DD:EE:FF", "255.255.255.0", "192.168.1.1"⟩ 3
    (by decide) (by decide) (Or.inl rfl) (by decide) (by decide) rfl (by decide)
    (fun i hi => ⟨gevInfo "169.254.7.7" false, by
      have h : i = 0 ∨ i = 1 ∨ i = 2 := by omega
      rcases h with rfl | rfl | rfl <;> decide, by decide⟩)
    (by decide) (by decide) (by decide)

/-! ## Properties of the buffer pool -/

theorem allocEvents_succ (alloc : BufferPtr → Nat → PvResult) (size first n : Nat) :
    allocEvents alloc size first (n + 1)
      = [Event.newBuffer first, Event.alloc first size (alloc first size).IsOK]
          ++ allocEvents alloc size (first + 1) n := by
  simp [allocEvents, List.range'_succ]

theorem allocLoop_eq (alloc : BufferPtr → Nat → PvResult) (size : Nat) (n : Nat) :
    ∀ (buffers : BufferList) (next : BufferPtr) (tr : Trace),
      allocLoop alloc size n buffers next tr
        = (buffers ++ List.range' next n, next + n, tr ++ allocEvents alloc size next n) := by
  induction n with
  | zero =>
    intro buffers next tr
    simp [allocLoop, allocEvents]
  | succ n ih =>
    intro buffers next tr
    rw [allocLoop, ih, allocEvents_succ, List.range'_succ]
    simp [Nat.add_assoc, Nat.add_comm 1 n]

theorem queueLoop_trace (bs : List BufferPtr) :
    ∀ (s : PvStream) (tr : Trace),
      (queueLoop bs s tr).2 = tr ++ bs.map Event.queueBuffer := by
  induction bs with
  | nil => intro s tr; simp [queueLoop]
  | cons b rest ih => intro s tr; simp [queueLoop, ih]

theorem queueLoop_stream (bs : List BufferPtr) :
    ∀ (s : PvStream) (tr : Trace),
      s.GetQueuedBufferCount + bs.length ≤ s.queuedBufferMaximum →
      (queueLoop bs s tr).1 = { s with pending := s.pending ++ bs } := by
  induction bs with
  | nil => intro s tr _; simp [queueLoop]
  | cons b rest ih =>
    intro s tr h
    simp only [List.length_cons] at h
    have hroom : s.GetQueuedBufferCount < s.queuedBufferMaximum := by omega
    have hq : s.QueueBuffer b = { s with pending := s.pending ++ [b] } := by
      simp [PvStream.QueueBuffer, hroom]
    rw [queueLoop, hq, ih]
    · simp
    · simp only [PvStream.GetQueuedBufferCount, List.length_append, List.length_cons,
        List.length_nil] at h ⊢
      omega

theorem queueBuffer_count (s : PvStream) (b : BufferPtr) :
    (s.QueueBuffer b).GetQueuedBufferCount ≤ s.GetQueuedBufferCount + 1 := by
  unfold PvStream.QueueBuffer
  split
  · simp [PvStream.GetQueuedBufferCount]
    omega
  · omega

theorem queueLoop_count (bs : List BufferPtr) :
    ∀ (s : PvStream) (tr : Trace),
      (queueLoop bs s tr).1.GetQueuedBufferCount ≤ s.GetQueuedBufferCount + bs.length := by
  induction bs with
  | nil => intro s tr; simp [queueLoop]
  | cons b rest ih =>
    intro s tr
    have h1 := ih (s.QueueBuffer b) (tr ++ [.queueBuffer b])
    have h2 := queueBuffer_count s b
    simp only [queueLoop, List.length_cons]
    omega

theorem retrieveLoop_ready (ready : List (PvBuffer × PvResult)) :
    ∀ (fuel : Nat) (s : PvStream) (tr : Trace),
      s.pending = [] → s.ready = ready → ready.length ≤ fuel →
      retrieveLoop fuel s tr
        = some ({ s with ready := [] },
            tr ++ List.replicate ready.length Event.retrieveBuffer) := by
  induction ready with
  | nil =>
    intro fuel s tr hp hr _
    have hc : s.GetQueuedBufferCount = 0 := by simp [PvStream.GetQueuedBufferCount, hp, hr]
    unfold retrieveLoop
    simp [hc, ← hr]
  | cons r rest ih =>
    intro fuel s tr hp hr hfuel
    have hc : s.GetQueuedBufferCount > 0 := by simp [PvStream.GetQueuedBufferCount, hr]
    cases fuel with
    | zero => simp at hfuel
    | succ fuel =>
      have hret : (s.RetrieveBuffer none).1 = { s with ready := rest } := by
        simp [PvStream.RetrieveBuffer, hr]
      unfold retrieveLoop
      simp only [hc, if_true, hret]
      rw [ih fuel { s with ready := rest } _ hp rfl (by simpa using hfuel)]
      simp [List.replicate_succ]

theorem deleteLoop_eq (bs : List BufferPtr) :
    ∀ tr : Trace, deleteLoop bs tr = tr ++ bs.map Event.deleteBuffer := by
  induction bs with
  | nil => intro tr; simp [deleteLoop]
  | cons b rest ih => intro tr; simp [deleteLoop, ih]

theorem count_queueBuffer_map (b : BufferPtr) (bs : List BufferPtr) :
    (bs.map Event.queueBuffer).count (Event.queueBuffer b) = bs.count b := by
  induction bs with
  | nil => rfl
  | cons x rest ih =>
    by_cases h : x = b <;> simp [List.count_cons, ih, h]

theorem count_deleteBuffer_map (b : BufferPtr) (bs : List BufferPtr) :
    (bs.map Event.deleteBuffer).count (Event.deleteBuffer b) = bs.count b := by
  induction bs with
  | nil => rfl
  | cons x rest ih =>
    by_cases h : x = b <;> simp [List.count_cons, ih, h]

theorem newBuffer_mem_allocEvents (alloc : BufferPtr → Nat → PvResult) (size : Nat) (b : BufferPtr)
    (n : Nat) : ∀ first : Nat,
      Event.newBuffer b ∈ allocEvents alloc size first n ↔ b ∈ List.range' first n := by
  induction n with
  | zero => intro first; simp [allocEvents]
  | succ n ih =>
    intro first
    rw [allocEvents_succ, List.range'_succ]
    simp [ih (first + 1)]

theorem count_other_allocEvents (alloc : BufferPtr → Nat → PvResult) (size : Nat) (e : Event)
    (he : ∀ b : BufferPtr, e ≠ Event.newBuffer b)
    (he2 : ∀ (b : BufferPtr) (sz : Nat) (ok : Bool), e ≠ Event.alloc b sz ok) (n : Nat) :
    ∀ first : Nat, (allocEvents alloc size first n).count e = 0 := by
  induction n with
  | zero => intro first; simp [allocEvents]
  | succ n ih =>
    intro first
    rw [allocEvents_succ, List.count_append, ih (first + 1)]
    have h1 := he first
    have h2 := he2 first size (alloc first size).IsOK
    simp [List.count_cons, Ne.symm h1, Ne.symm h2]

theorem count_range_of_mem {b first n : Nat} (h : b ∈ List.range' first n) :
    (List.range' first n).count b = 1 :=
  List.count_eq_one_of_mem (List.nodup_range' first n) h

theorem createStreamBuffersWith_eq (requestedCount : Nat) (alloc : BufferPtr → Nat → PvResult)
    (dev : PvDevice) (st : PvStream) (buffers : BufferList) (next : BufferPtr) (tr : Trace) :
    createStreamBuffersWith requestedCount alloc (some dev) (some st) buffers next tr
      = ⟨⟨some (queueLoop (buffers ++ List.range' next (min requestedCount st.queuedBufferMaximum))
              st (tr ++ allocEvents alloc dev.payloadSize next
                (min requestedCount st.queuedBufferMaximum))).1,
           buffers ++ List.range' next (min requestedCount st.queuedBufferMaximum),
           next + min requestedCount st.queuedBufferMaximum⟩,
          tr ++ allocEvents alloc dev.payloadSize next (min requestedCount st.queuedBufferMaximum)
            ++ (buffers ++ List.range' next (min requestedCount st.queuedBufferMaximum)).map
                Event.queueBuffer,
          .ok ()⟩ := by
  have hmin : (if st.queuedBufferMaximum < requestedCount then st.queuedBufferMaximum
      else requestedCount) = min requestedCount st.queuedBufferMaximum := by
    split <;> omega
  simp only [createStreamBuffersWith, hmin, allocLoop_eq, queueLoop_trace]

/-- C6. Buffer pool invariant. For every requested count (the code uses `BUFFER_COUNT`),
every queue depth of the stream and every behaviour of the allocator, on an empty
pool: `createStreamBuffersWith` returns normally with a pool of exactly
`min requestedCount queuedBufferMaximum` distinct buffers, which are exactly the
buffers it created, and `QueueBuffer` was called once on each and on no other buffer;
when the stream held no buffer before, they are all pending in it afterwards.
`clearStreamBuffers`, run right after, with its retrieval loop allowed at least as
many iterations as the stream held buffers before plus the size of the pool, returns
normally with an empty pool and a stream that holds no buffer, having deleted each
buffer of the pool exactly once and no other buffer. -/
theorem buffer_pool_invariant (requestedCount : Nat) (alloc : BufferPtr → Nat → PvResult)
    (dev : PvDevice) (st : PvStream) (nextBuffer : BufferPtr) (tr : Trace) (fuel : Nat)
    (hfuel : st.GetQueuedBufferCount + min requestedCount st.queuedBufferMaximum ≤ fuel) :
    ∃ (pool : BufferList) (st1 st2 : PvStream) (created cleared : Trace),
      createStreamBuffersWith requestedCount alloc (some dev) (some st) [] nextBuffer tr
        = ⟨⟨some st1, pool, nextBuffer + pool.length⟩, tr ++ created, .ok ()⟩ ∧
      pool.length = min requestedCount st.queuedBufferMaximum ∧
      pool.Nodup ∧
      (∀ b : BufferPtr, Event.newBuffer b ∈ created ↔ b ∈ pool) ∧
      (∀ b : BufferPtr, b ∈ pool → created.count (Event.queueBuffer b) = 1) ∧
      (∀ b : BufferPtr, b ∉ pool → created.count (Event.queueBuffer b) = 0) ∧
      (st.GetQueuedBufferCount = 0 → st1.pending = pool ∧ st1.ready = []) ∧
      clearStreamBuffers fuel (some st1) pool (nextBuffer + pool.length) (tr ++ created)
        = some ⟨⟨some st2, [], nextBuffer + pool.length⟩, tr ++ created ++ cleared, .ok ()⟩ ∧
      st2.GetQueuedBufferCount = 0 ∧
      (∀ b : BufferPtr, b ∈ pool → cleared.count (Event.deleteBuffer b) = 1) ∧
      (∀ b : BufferPtr, b ∉ pool → cleared.count (Event.deleteBuffer b) = 0) := by
  generalize hn : min requestedCount st.queuedBufferMaximum = n at hfuel
  have hle : n ≤ st.queuedBufferMaximum := by omega
  have hcreate := createStreamBuffersWith_eq requestedCount alloc dev st [] nextBuffer tr
  rw [hn] at hcreate
  simp only [List.nil_append] at hcreate
  generalize hst1 : (queueLoop (List.range' nextBuffer n) st
    (tr ++ allocEvents alloc dev.payloadSize nextBuffer n)).1 = st1 at hcreate
  have hcount : st1.GetQueuedBufferCount ≤ fuel := by
    have := queueLoop_count (List.range' nextBuffer n) st
      (tr ++ allocEvents alloc dev.payloadSize nextBuffer n)
    rw [hst1] at this
    simp only [List.length_range'] at this
    omega
  have hready : st1.AbortQueuedBuffers.ready.length ≤ fuel := by
    simpa [PvStream.AbortQueuedBuffers, PvStream.GetQueuedBufferCount, Nat.add_comm]
      using hcount
  refine ⟨List.range' nextBuffer n, st1, { st1.AbortQueuedBuffers with ready := [] },
    allocEvents alloc dev.payloadSize nextBuffer n
      ++ (List.range' nextBuffer n).map Event.queueBuffer,
    [Event.abortQueuedBuffers]
      ++ List.replicate st1.AbortQueuedBuffers.ready.length Event.retrieveBuffer
      ++ (List.range' nextBuffer n).map Event.deleteBuffer,
    ?_, by simp, List.nodup_range' nextBuffer n, ?_, ?_, ?_, ?_, ?_, ?_, ?_, ?_⟩
  · rw [hcreate]
    simp
  · intro b
    simp [newBuffer_mem_allocEvents]
  · intro b hb
    rw [List.count_append, count_queueBuffer_map, count_range_of_mem hb,
      count_other_allocEvents alloc dev.payloadSize _ (by simp) (by simp)]
  · intro b hb
    rw [List.count_append, count_queueBuffer_map, List.count_eq_zero_of_not_mem hb,
      count_other_allocEvents alloc dev.payloadSize _ (by simp) (by simp)]
  · intro hempty
    have hp : st.pending = [] := by
      have := hempty
      simp only [PvStream.GetQueuedBufferCount] at this
      exact List.eq_nil_of_length_eq_zero (by omega)
    have hr : st.ready = [] := by
      have := hempty
      simp only [PvStream.GetQueuedBufferCount] at this
      exact List.eq_nil_of_length_eq_zero (by omega)
    rw [← hst1, queueLoop_stream _ st _ (by simp [hempty, hle]), hp]
    exact ⟨by simp, hr⟩
  · simp only [clearStreamBuffers]
    rw [retrieveLoop_ready st1.AbortQueuedBuffers.ready fuel st1.AbortQueuedBuffers _
      rfl rfl hready]
    simp [deleteLoop_eq]
  · simp [PvStream.GetQueuedBufferCount, PvStream.AbortQueuedBuffers]
  · intro b hb
    rw [List.count_append, count_deleteBuffer_map, count_range_of_mem hb]
    simp [List.count_cons, List.count_replicate]
  · intro b hb
    rw [List.count_append, count_deleteBuffer_map, List.count_eq_zero_of_not_mem hb]
    simp [List.count_cons, List.count_replicate]

/-- Witness of C6: sixteen buffers requested from a stream of queue depth eight, with an
allocator that fails once. -/
theorem buffer_pool_invariant_witness :
    (camStream 8 []).GetQueuedBufferCount
      + min BUFFER_COUNT (camStream 8 []).queuedBufferMaximum ≤ 8 ∧
    (createStreamBuffers allocFailingAt1 (some camDevice) (some (camStream 8 [])) [] 0
        []).state.buffers.length = 8 ∧
    ∃ (pool : BufferList) (st1 st2 : PvStream) (created cleared : Trace),
      createStreamBuffersWith BUFFER_COUNT allocFailingAt1 (some camDevice)
          (some (camStream 8 [])) [] 0 []
        = ⟨⟨some st1, pool, 0 + pool.length⟩, [] ++ created, .ok ()⟩ ∧
      pool.length = min BUFFER_COUNT (camStream 8 []).queuedBufferMaximum ∧
      pool.Nodup ∧
      (∀ b : BufferPtr, Event.newBuffer b ∈ created ↔ b ∈ pool) ∧
      (∀ b : BufferPtr, b ∈ pool → created.count (Event.queueBuffer b) = 1) ∧
      (∀ b : BufferPtr, b ∉ pool → created.count (Event.queueBuffer b) = 0) ∧
      ((camStream 8 []).GetQueuedBufferCount = 0 → st1.pending = pool ∧ st1.ready = []) ∧
      clearStreamBuffers 8 (some st1) pool (0 + pool.length) ([] ++ created)
        = some ⟨⟨some st2, [], 0 + pool.length⟩, [] ++ created ++ cleared, .ok ()⟩ ∧
      st2.GetQueuedBufferCount = 0 ∧
      (∀ b : BufferPtr, b ∈ pool → cleared.count (Event.deleteBuffer b) = 1) ∧
      (∀ b : BufferPtr, b ∉ pool → cleared.count (Event.deleteBuffer b) = 0) :=
  ⟨by decide, by decide,
    buffer_pool_invariant BUFFER_COUNT allocFailingAt1 camDevice (camStream 8 []) 0 [] 8
      (by decide)⟩

/-- C8 as stated fails: with a stream of queue depth three and an allocator that fails for
the second buffer, `createStreamBuffers` raises nothing and rolls nothing back: it
returns normally with all three buffers in the pool and pending in the stream, the one
without payload memory included, and deletes none. -/
theorem createStreamBuffers_alloc_failure_not_rolled_back :
    (allocFailingAt1 1 camDevice.payloadSize).IsOK = false ∧
    createStreamBuffers allocFailingAt1 (some camDevice) (some (camStream 3 [])) [] 0 []
      = ⟨⟨some (camStream 3 [0, 1, 2]), [0, 1, 2], 3⟩,
          [.newBuffer 0, .alloc 0 1024 true, .newBuffer 1, .alloc 1 1024 false,
           .newBuffer 2, .alloc 2 1024 true,
           .queueBuffer 0, .queueBuffer 1, .queueBuffer 2],
          .ok ()⟩ := by
  decide

/-- C8, amended. `createStreamBuffers` does not look at the result of `Alloc`: for every
behaviour of the allocator, a call with a non-null device and stream returns normally,
appends `min BUFFER_COUNT queuedBufferMaximum` new buffers to the pool, calls
`QueueBuffer` once for every entry of the pool, in pool order, after the allocation
events, and deletes no buffer. -/
theorem createStreamBuffers_ignores_alloc_result (alloc : BufferPtr → Nat → PvResult)
    (dev : PvDevice) (st : PvStream) (buffers : BufferList) (nextBuffer : BufferPtr)
    (tr : Trace) :
    (createStreamBuffers alloc (some dev) (some st) buffers nextBuffer tr).result = .ok () ∧
    (createStreamBuffers alloc (some dev) (some st) buffers nextBuffer tr).state.buffers
      = buffers ++ List.range' nextBuffer (min BUFFER_COUNT st.queuedBufferMaximum) ∧
    (createStreamBuffers alloc (some dev) (some st) buffers nextBuffer tr).trace
      = tr ++ allocEvents alloc dev.payloadSize nextBuffer
            (min BUFFER_COUNT st.queuedBufferMaximum)
          ++ (buffers ++ List.range' nextBuffer
            (min BUFFER_COUNT st.queuedBufferMaximum)).map Event.queueBuffer ∧
    ∀ b : BufferPtr,
      (allocEvents alloc dev.payloadSize nextBuffer (min BUFFER_COUNT st.queuedBufferMaximum)
        ++ (buffers ++ List.range' nextBuffer
          (min BUFFER_COUNT st.queuedBufferMaximum)).map Event.queueBuffer).count
        (Event.deleteBuffer b) = 0 := by
  simp only [createStreamBuffers, createStreamBuffersWith_eq]
  refine ⟨trivial, trivial, trivial, ?_⟩
  intro b
  rw [List.count_append, count_other_allocEvents alloc dev.payloadSize _ (by simp) (by simp)]
  simp [List.count_eq_zero]

/-! ## Properties of `configStream` -/

/-- C9 on the code: with a GigE Vision device and a stream that is not a `PvStreamGEV`,
`configStream` negotiates the packet size and then calls `GetLocalIPAddress` through
the null `streamGev`; it raises no `CameraException`. With a device that is not a
`PvDeviceGEV` it does raise the exception before any negotiation. -/
theorem configStream_stream_kind_unchecked :
    configStream (some camDevice) (some usbStream) []
      = ⟨(), [.negotiatePacketSize], .error .nullDereference⟩ ∧
    configStream (some { camDevice with gev := false }) (some usbStream) []
      = ⟨(), [], .error (.cameraException "Unable to configure mStream: 'deviceGev' is null.")⟩ := by
  decide

/-! ## Properties of `acquireImage` -/

/-- C7. When the device has the start and stop commands, the stream has the two statistics,
and `RetrieveBuffer` delivers a buffer with both results OK and an image payload,
`acquireImage` returns normally, and among the events it adds to the trace the encoder
invocations are: none when the block id of the buffer is 0; exactly one when it is not,
namely `Store` of that buffer to the caller's output path in the TIFF format. -/
theorem acquireImage_encoder_invocation (dev : PvDevice) (st st1 : PvStream)
    (out_path : String) (incoming : Option Frame) (tr : Trace)
    (result operationResult : PvResult) (buffer : PvBuffer) (start stop rate width : String)
    (hstart : getCommand dev.parameters ACQUISITION_START_CMD = some start)
    (hstop : getCommand dev.parameters ACQUISITION_STOP_CMD = some stop)
    (hrate : getFloat st.parameters ACQUISITION_RATE_CMD = some rate)
    (hwidth : getFloat st.parameters BANDWIDTH_CMD = some width)
    (hretrieve : st.RetrieveBuffer incoming = (st1, ⟨result, some buffer, operationResult⟩))
    (hresult : result.IsOK = true) (hoperation : operationResult.IsOK = true)
    (himage : buffer.payloadType = .PvPayloadTypeImage) :
    (acquireImage (some dev) (some st) out_path incoming tr).result = .ok () ∧
    ∃ events : Trace,
      (acquireImage (some dev) (some st) out_path incoming tr).trace = tr ++ events ∧
      (buffer.blockID = 0 → events.filter Event.isStore = []) ∧
      (buffer.blockID ≠ 0 →
        events.filter Event.isStore = [.store buffer.ptr out_path .PvBufferFormatTIFF]) := by
  by_cases hid : buffer.blockID = 0
  · refine ⟨by simp [acquireImage, processRetrieved, hstart, hstop, hrate, hwidth, hretrieve,
      hresult, hoperation, himage, hid],
      [.streamEnable, .execute start, .retrieveBuffer, .getValue rate, .getValue width,
        .queueBuffer buffer.ptr, .execute stop, .streamDisable], ?_, ?_, ?_⟩
    · simp [acquireImage, processRetrieved, hstart, hstop, hrate, hwidth, hretrieve,
        hresult, hoperation, himage, hid]
    · intro _
      simp [Event.isStore]
    · intro h
      exact absurd hid h
  · refine ⟨by simp [acquireImage, processRetrieved, hstart, hstop, hrate, hwidth, hretrieve,
      hresult, hoperation, himage, hid],
      [.streamEnable, .execute start, .retrieveBuffer, .getValue rate, .getValue width,
        .store buffer.ptr out_path .PvBufferFormatTIFF,
        .queueBuffer buffer.ptr, .execute stop, .streamDisable], ?_, ?_, ?_⟩
    · simp [acquireImage, processRetrieved, hstart, hstop, hrate, hwidth, hretrieve,
        hresult, hoperation, himage, hid]
    · intro h
      exact absurd h hid
    · intro _
      simp [Event.isStore]

/-- Witness of C7: the camera delivers an image frame with block id 42 into the oldest
pending buffer. -/
theorem acquireImage_encoder_invocation_witness :
    (acquireImage (some camDevice) (some (camStream 8 [0, 1])) "image.tiff"
        (some ⟨.PvPayloadTypeImage, 42, ⟨0, "OK"⟩⟩) []).trace
      = [.streamEnable, .execute "AcquisitionStart", .retrieveBuffer,
         .getValue "AcquisitionRate", .getValue "Bandwidth",
         .store 0 "image.tiff" .PvBufferFormatTIFF, .queueBuffer 0,
         .execute "AcquisitionStop", .streamDisable] ∧
    (acquireImage (some camDevice) (some (camStream 8 [0, 1])) "image.tiff"
        (some ⟨.PvPayloadTypeImage, 42, ⟨0, "OK"⟩⟩) []).result = .ok () ∧
    ∃ events : Trace,
      (acquireImage (some camDevice) (some (camStream 8 [0, 1])) "image.tiff"
        (some ⟨.PvPayloadTypeImage, 42, ⟨0, "OK"⟩⟩) []).trace = [] ++ events ∧
      ((42 : Nat) = 0 → events.filter Event.isStore = []) ∧
      ((42 : Nat) ≠ 0 →
        events.filter Event.isStore = [.store 0 "image.tiff" .PvBufferFormatTIFF]) :=
  ⟨by decide,
    acquireImage_encoder_invocation camDevice (camStream 8 [0, 1]) (camStream 8 [1])
      "image.tiff" (some ⟨.PvPayloadTypeImage, 42, ⟨0, "OK"⟩⟩) [] ⟨0, "OK"⟩ ⟨0, "OK"⟩
      ⟨0, .PvPayloadTypeImage, 42⟩ "AcquisitionStart" "AcquisitionStop" "AcquisitionRate"
      "Bandwidth" (by decide) (by decide) (by decide) (by decide) (by decide) (by decide)
      (by decide) rfl⟩

/-- C1 on the code: when `RetrieveBuffer` delivers a buffer whose payload is not an image,
or a buffer flagged with an operation error, `acquireImage` throws before it reaches
the `QueueBuffer` call: the trace holds no `QueueBuffer` event and the delivered
buffer `0` is no longer in the stream. When the payload is an image the buffer is
requeued once. -/
theorem acquireImage_failure_skips_requeue :
    acquireImage (some camDevice) (some (camStream 8 [0, 1])) "image.tiff"
        (some ⟨.PvPayloadTypeRawData, 42, ⟨0, "OK"⟩⟩) []
      = ⟨some (camStream 8 [1]),
          [.streamEnable, .execute "AcquisitionStart", .retrieveBuffer,
           .getValue "AcquisitionRate", .getValue "Bandwidth"],
          .error (.cameraException "Buffer does not contain an image")⟩ ∧
    acquireImage (some camDevice) (some (camStream 8 [0, 1])) "image.tiff"
        (some ⟨.PvPayloadTypeImage, 42, ⟨17, "MISSING_PACKETS"⟩⟩) []
      = ⟨some (camStream 8 [1]),
          [.streamEnable, .execute "AcquisitionStart", .retrieveBuffer],
          .error (.cameraException "Buffer retrieve operation error: MISSING_PACKETS")⟩ ∧
    acquireImage (some camDevice) (some (camStream 8 [0, 1])) "image.tiff"
        (some ⟨.PvPayloadTypeImage, 42, ⟨0, "OK"⟩⟩) []
      = ⟨some (camStream 8 [1, 0]),
          [.streamEnable, .execute "AcquisitionStart", .retrieveBuffer,
           .getValue "AcquisitionRate", .getValue "Bandwidth",
           .store 0 "image.tiff" .PvBufferFormatTIFF, .queueBuffer 0,
           .execute "AcquisitionStop", .streamDisable],
          .ok ()⟩ := by
  decide

end Camera
